import Mathlib

/-!
Shallow embedding of the calculation and assembly core of
src/generate_pdf.py (class EstimatePDFGenerator), together with proofs
about it.

Modelling conventions:
- A JSON scalar that can reach the arithmetic is either an integer or a
  string; it is modelled by the inductive type `Val`.
- A line-item dict is modelled by the structure `Item`; an absent key is
  `none`.
- Python `str(...)` on such a value is `pyStr`, `int(...)` on a string is
  `pyInt` (optional sign followed by decimal digits; failure is `none`,
  standing for the ValueError the code catches).
- The format `f"{n:,}"` is `commaFormat`.
- The expression `int(x * tax_rate)` where `tax_rate = tax / 100` is a
  float is modelled as exact rational arithmetic truncated toward zero:
  `truncDiv (x * tax) 100`.  Python int() on a float truncates toward
  zero, and for the integer-percent rates the program uses, exact
  arithmetic and double arithmetic agree on the inputs considered here.
-/

/-- ASCII digit character for a value below ten. -/
def digitChar (n : Nat) : Char := Char.ofNat (48 + n)

/-- Decimal digits of a natural number, most significant first, with a
fuel argument to keep the recursion structural. -/
def natDigitsAux : Nat → Nat → List Char
  | 0, _ => []
  | fuel + 1, n => if n = 0 then [] else natDigitsAux fuel (n / 10) ++ [digitChar (n % 10)]

/-- Decimal digit string of a natural number, as a character list. -/
def natDigitsStr (n : Nat) : List Char :=
  if n = 0 then ['0'] else natDigitsAux (n + 1) n

/-- Decimal rendering of an integer, mirroring Python str() on an int. -/
def intToString (n : Int) : String :=
  if n < 0 then String.mk ('-' :: natDigitsStr n.natAbs) else String.mk (natDigitsStr n.natAbs)

/-- Insert a comma after every third character of a reversed digit list;
helper for `commaFormat`. -/
def groupRev : List Char → List Char
  | a :: b :: c :: d :: rest => a :: b :: c :: ',' :: groupRev (d :: rest)
  | l => l

/-- Thousands grouping of a natural number, mirroring f-string comma
formatting. -/
def commaFormatNat (n : Nat) : String :=
  String.mk (groupRev (natDigitsStr n).reverse).reverse

/-- Thousands grouping of an integer: the Python format f"{n:,}". -/
def commaFormat (n : Int) : String :=
  if n < 0 then "-" ++ commaFormatNat n.natAbs else commaFormatNat n.natAbs

/-- Quotient truncated toward zero, mirroring Python int() applied to an
exact quotient a / b with b positive. -/
def truncDiv (a : Int) (b : Nat) : Int :=
  if 0 ≤ a then ((a.natAbs / b : Nat) : Int) else -((a.natAbs / b : Nat) : Int)

/-- Digits to a natural number, most significant first. -/
def digitsToNat (l : List Char) : Nat :=
  l.foldl (fun acc c => 10 * acc + (c.toNat - 48)) 0

/-- Python int() applied to a string: an optional sign followed by at
least one decimal digit; `none` models the ValueError raised otherwise. -/
def pyInt (s : String) : Option Int :=
  match s.data with
  | [] => none
  | c :: rest =>
    if c = '-' then
      if rest ≠ [] ∧ rest.all Char.isDigit then some (-(digitsToNat rest : Int)) else none
    else if c = '+' then
      if rest ≠ [] ∧ rest.all Char.isDigit then some ((digitsToNat rest : Int)) else none
    else if (c :: rest).all Char.isDigit then some ((digitsToNat (c :: rest) : Int)) else none

/-- A JSON scalar reaching the arithmetic: an integer or a string. -/
inductive Val where
  | i : Int → Val
  | s : String → Val
deriving DecidableEq, Repr

/-- Python str() applied to a `Val`. -/
def pyStr : Val → String
  | .i n => intToString n
  | .s t => t

/-- Python truthiness of a `Val`: zero and the empty string are falsy. -/
def valTruthy : Val → Bool
  | .i n => n != 0
  | .s t => !t.isEmpty

/-- The replace of commas by the empty string performed before parsing
amounts: str.replace applied with a comma pattern and empty replacement. -/
def stripCommas (s : String) : String :=
  String.mk (s.data.filter (fun c => c != ','))

/-- The replace of spaces by the empty string performed on the document
title when building the output file name. -/
def removeSpaces (s : String) : String :=
  String.mk (s.data.filter (fun c => c != ' '))

/-- One line-item dict. Keys the code reads or writes: name, quantity,
price, total, tax_amount; an absent key is `none`. -/
structure Item where
  name : Option Val
  quantity : Option Val
  price : Option Val
  total : Option Val
  tax_amount : Option Val
deriving DecidableEq, Repr

/-- calculate_item_total (src/generate_pdf.py lines 53-62): parse
quantity via int(str(item.get(quantity, 0))), parse price via
int(str(item.get(price, "0")).replace(",", "")), return the
comma-formatted product; on ValueError return "0". -/
def calculate_item_total (item : Item) : String :=
  match pyInt (pyStr (item.quantity.getD (Val.i 0))),
        pyInt (stripCommas (pyStr (item.price.getD (Val.s "0")))) with
  | some q, some p => commaFormat (q * p)
  | _, _ => "0"

/-- The condition of line 73: total key present and Python-truthy. -/
def totalFilled (item : Item) : Bool :=
  match item.total with
  | none => false
  | some v => valTruthy v

/-- Lines 72-74: if total is absent or falsy, store the computed item
total back onto the item. -/
def fillTotal (item : Item) : Item :=
  if totalFilled item then item
  else { item with total := some (Val.s (calculate_item_total item)) }

/-- The totals dict returned by calculate_totals (lines 103-109). -/
structure Totals where
  supply_price : String
  tax_amount : String
  total_tax_amount : String
  total_amount : String
  total_quantity : Int
deriving DecidableEq, Repr

/-- Body of one iteration of the loop at lines 71-88, amount part: fill
the total if needed, parse it with commas stripped; on success store the
formatted per-item tax and yield the parsed total and the tax, on
ValueError store the string "0" as the tax and yield zeros.  `tax` is
the integer tax percentage; the per-item tax int(item_total * tax_rate)
is `truncDiv (it * tax) 100`. -/
def processItem (tax : Int) (item : Item) : Item × Int × Int :=
  let item1 := fillTotal item
  match pyInt (stripCommas (pyStr (item1.total.getD (Val.s "0")))) with
  | some it =>
      ({ item1 with tax_amount := some (Val.s (commaFormat (truncDiv (it * tax) 100))) },
       it, truncDiv (it * tax) 100)
  | none => ({ item1 with tax_amount := some (Val.s "0") }, 0, 0)

/-- Lines 90-94: the contribution of one item to total_quantity; the
except ValueError / pass of the code makes a failed parse contribute
nothing, which on a sum is the value zero. -/
def quantityContribution (item : Item) : Int :=
  (pyInt (pyStr (item.quantity.getD (Val.i 0)))).getD 0

/-- The loop of calculate_totals (lines 71-94): processed items in input
order, then the supply_price, total_tax and total_quantity accumulators. -/
def calcLoop (tax : Int) : List Item → List Item × Int × Int × Int
  | [] => ([], 0, 0, 0)
  | item :: rest =>
    let p := processItem tax item
    let r := calcLoop tax rest
    (p.1 :: r.1, p.2.1 + r.2.1, p.2.2 + r.2.2.1, quantityContribution item + r.2.2.2)

/-- calculate_totals (src/generate_pdf.py lines 64-109): run the item
loop, compute the aggregate tax int(supply_price * tax_rate) from the
summed supply price, the total amount, and return the comma-formatted
figures together with the mutated items. -/
def calculate_totals (items : List Item) (tax : Int) : List Item × Totals :=
  let r := calcLoop tax items
  let tax_amount := truncDiv (r.2.1 * tax) 100
  (r.1,
   { supply_price := commaFormat r.2.1
     tax_amount := commaFormat tax_amount
     total_tax_amount := commaFormat r.2.2.1
     total_amount := commaFormat (r.2.1 + tax_amount)
     total_quantity := r.2.2.2 })

/-- The item as mutated by one loop iteration; first component of
`processItem`. -/
def stepItem (tax : Int) (item : Item) : Item :=
  (processItem tax item).1

/-- The contribution of one item to supply_price: the parsed filled
total, or zero on parse failure. -/
def itemContribution (item : Item) : Int :=
  (pyInt (stripCommas (pyStr ((fillTotal item).total.getD (Val.s "0"))))).getD 0

/-- The per-item tax recorded by one loop iteration, as an integer. -/
def perItemTax (tax : Int) (item : Item) : Int :=
  match pyInt (stripCommas (pyStr ((fillTotal item).total.getD (Val.s "0")))) with
  | some it => truncDiv (it * tax) 100
  | none => 0

/-- The result of parsing the quantity of one item, the way lines 90-94
and line 56 both do. -/
def parsedQuantity (item : Item) : Option Int :=
  pyInt (pyStr (item.quantity.getD (Val.i 0)))

/-- The slice of the input record that the monetary-field resolution of
generate_pdf reads (lines 140-147): the item list, the integer tax
percentage, and the three optional override amounts. -/
structure RecordData where
  items : List Item
  tax : Option Int
  supply_price : Option Val
  tax_amount : Option Val
  total_amount : Option Val

/-- Lines 143-147 of generate_pdf: compute the totals with
tax_rate = data.get(tax, 10) / 100, then resolve each of the three
top-level monetary fields as data.get(key, computed value). -/
def resolvedAmounts (data : RecordData) : Val × Val × Val :=
  let calculated := (calculate_totals data.items (data.tax.getD 10)).2
  (data.supply_price.getD (Val.s calculated.supply_price),
   data.tax_amount.getD (Val.s calculated.tax_amount),
   data.total_amount.getD (Val.s calculated.total_amount))

/-- Lines 117-120: the template name is the override when it is truthy,
else the default clean_gradient. -/
def templateNameOf (template_override : Option String) : String :=
  match template_override with
  | some t => if t.isEmpty then "clean_gradient" else t
  | none => "clean_gradient"

/-- The last path component: the characters after the last slash. -/
def lastComponent (s : String) : String :=
  String.mk (s.data.reverse.takeWhile (fun c => c != '/')).reverse

/-- Python pathlib stem of the last component: drop the suffix starting
at the last dot, unless the dot is the first character of the name. -/
def pathStem (s : String) : String :=
  let base := (lastComponent s).data
  match base.reverse.dropWhile (fun c => c != '.') with
  | [] => String.mk base
  | [_] => String.mk base
  | _ :: rest => String.mk rest.reverse

/-- Lines 125-130 of generate_pdf: when no output path is supplied, the
output path is output/{json file stem}_{template name}_{doc title with
spaces removed}.pdf. -/
def generatePdfOutputPath (json_path : String) (output_path : Option String)
    (template_override : Option String) (doc_title : String) : String :=
  match output_path with
  | some p => p
  | none =>
    "output/" ++ pathStem json_path ++ "_" ++ templateNameOf template_override ++ "_"
      ++ removeSpaces doc_title ++ ".pdf"

/-- One loop iteration splits into the mutated item, its supply-price
contribution and its per-item tax. -/
theorem processItem_eq (tax : Int) (item : Item) :
    processItem tax item = (stepItem tax item, itemContribution item, perItemTax tax item) := by
  cases hp : pyInt (stripCommas (pyStr ((fillTotal item).total.getD (Val.s "0")))) with
  | none => simp [processItem, stepItem, itemContribution, perItemTax, hp]
  | some it => simp [processItem, stepItem, itemContribution, perItemTax, hp]

/-- The loop of calculate_totals maps `stepItem` over the items and sums
the three per-item contributions. -/
theorem calcLoop_eq (tax : Int) (items : List Item) :
    calcLoop tax items =
      (items.map (stepItem tax),
       (items.map itemContribution).sum,
       (items.map (perItemTax tax)).sum,
       (items.map quantityContribution).sum) := by
  induction items with
  | nil => simp [calcLoop]
  | cons h t ih => simp [calcLoop, ih, processItem_eq]

/-- Closed form of calculate_totals in terms of the per-item helpers. -/
theorem calculate_totals_eq (items : List Item) (tax : Int) :
    calculate_totals items tax =
      (items.map (stepItem tax),
       { supply_price := commaFormat ((items.map itemContribution).sum)
         tax_amount := commaFormat (truncDiv ((items.map itemContribution).sum * tax) 100)
         total_tax_amount := commaFormat ((items.map (perItemTax tax)).sum)
         total_amount := commaFormat ((items.map itemContribution).sum
           + truncDiv ((items.map itemContribution).sum * tax) 100)
         total_quantity := (items.map quantityContribution).sum }) := by
  simp [calculate_totals, calcLoop_eq]

/-- A loop iteration never changes the total field it finds after the
fill step. -/
theorem stepItem_total (tax : Int) (item : Item) :
    (stepItem tax item).total = (fillTotal item).total := by
  cases hp : pyInt (stripCommas (pyStr ((fillTotal item).total.getD (Val.s "0")))) with
  | none => simp [stepItem, processItem, hp]
  | some it => simp [stepItem, processItem, hp]

/-- A loop iteration always stores the formatted per-item tax. -/
theorem stepItem_tax_amount (tax : Int) (item : Item) :
    (stepItem tax item).tax_amount = some (Val.s (commaFormat (perItemTax tax item))) := by
  cases hp : pyInt (stripCommas (pyStr ((fillTotal item).total.getD (Val.s "0")))) with
  | none =>
    have h0 : commaFormat 0 = "0" := by decide
    simp [stepItem, processItem, perItemTax, hp, h0]
  | some it => simp [stepItem, processItem, perItemTax, hp]

/-- After the fill step the total field is always present. -/
theorem fillTotal_isSome (item : Item) : (fillTotal item).total.isSome := by
  unfold fillTotal totalFilled
  cases h : item.total with
  | none => simp [h]
  | some v => cases hv : valTruthy v <;> simp [h, hv]

/-- C2 counterexample: an item whose quantity is the text 3,000 with a
thousands separator and whose price is 2 yields "0" from
calculate_item_total, not the formatted product "6,000": the quantity
operand is not parsed by stripping separators. -/
theorem c2_counterexample :
    calculate_item_total
      { name := none, quantity := some (Val.s "3,000"), price := some (Val.s "2"),
        total := none, tax_amount := none } = "0"
    ∧ commaFormat ((3000 : Int) * 2) = "6,000"
    ∧ ("0" : String) ≠ "6,000" := by decide

/-- C2 amended: when the quantity parses as an integer directly (no
separator stripping) to q and the price parses after separator
stripping to p, calculate_item_total returns the comma-formatted
product of q and p. -/
theorem c2_item_total (item : Item) (q p : Int)
    (hq : pyInt (pyStr (item.quantity.getD (Val.i 0))) = some q)
    (hp : pyInt (stripCommas (pyStr (item.price.getD (Val.s "0")))) = some p) :
    calculate_item_total item = commaFormat (q * p) := by
  simp [calculate_item_total, hq, hp]

/-- C2 witness: quantity 3 and price "1,000" give the formatted product
"3,000". -/
theorem c2_witness :
    calculate_item_total
      { name := none, quantity := some (Val.i 3), price := some (Val.s "1,000"),
        total := none, tax_amount := none } = commaFormat ((3 : Int) * 1000)
    ∧ commaFormat ((3 : Int) * 1000) = "3,000" :=
  ⟨c2_item_total _ 3 1000 (by decide) (by decide), by decide⟩

/-- C3: items are processed in input order (the output item list is the
input list mapped through one loop iteration), and an item whose total
is absent or the empty string comes out of calculate_totals carrying
exactly the value calculate_item_total produces for it. -/
theorem c3_fill_total (items : List Item) (tax : Int) (i : Nat) (it : Item)
    (hi : items[i]? = some it)
    (h : it.total = none ∨ it.total = some (Val.s "")) :
    (calculate_totals items tax).1 = items.map (stepItem tax)
    ∧ (calculate_totals items tax).1[i]? = some (stepItem tax it)
    ∧ (stepItem tax it).total = some (Val.s (calculate_item_total it)) := by
  have hmap : (calculate_totals items tax).1 = items.map (stepItem tax) := by
    simp [calculate_totals_eq]
  have hfill : totalFilled it = false := by
    rcases h with h | h
    · simp [totalFilled, h]
    · simp [totalFilled, h, valTruthy]
      decide
  refine ⟨hmap, ?_, ?_⟩
  · rw [hmap, List.getElem?_map, hi]; rfl
  · rw [stepItem_total]; simp [fillTotal, hfill]

/-- C3 witness: a concrete item with absent total and quantity 2, price
"500" comes out with total exactly calculate_item_total of it. -/
theorem c3_witness :
    (calculate_totals
      [{ name := none, quantity := some (Val.i 2), price := some (Val.s "500"),
         total := none, tax_amount := none }] 10).1[0]?
      = some (stepItem 10
        { name := none, quantity := some (Val.i 2), price := some (Val.s "500"),
          total := none, tax_amount := none })
    ∧ (stepItem 10
        { name := none, quantity := some (Val.i 2), price := some (Val.s "500"),
          total := none, tax_amount := none }).total
      = some (Val.s (calculate_item_total
        { name := none, quantity := some (Val.i 2), price := some (Val.s "500"),
          total := none, tax_amount := none })) :=
  have h := c3_fill_total
    [{ name := none, quantity := some (Val.i 2), price := some (Val.s "500"),
       total := none, tax_amount := none }] 10 0
    { name := none, quantity := some (Val.i 2), price := some (Val.s "500"),
      total := none, tax_amount := none } rfl (Or.inl rfl)
  ⟨h.2.1, h.2.2⟩

/-- C4: every item in the list returned by calculate_totals has a
present total field and a tax_amount field holding a comma-formatted
integer (the zero value on failure), for every input collection. -/
theorem c4_fields_present (items : List Item) (tax : Int) (it : Item)
    (h : it ∈ (calculate_totals items tax).1) :
    it.total.isSome ∧ ∃ n : Int, it.tax_amount = some (Val.s (commaFormat n)) := by
  have h2 : it ∈ items.map (stepItem tax) := by
    rw [calculate_totals_eq] at h; exact h
  obtain ⟨a, -, rfl⟩ := List.mem_map.mp h2
  constructor
  · rw [stepItem_total]; exact fillTotal_isSome a
  · exact ⟨perItemTax tax a, stepItem_tax_amount tax a⟩

/-- C4 witness: applied to a collection holding one computable item and
one item whose total is the unparseable string abc. -/
theorem c4_witness :
    (stepItem 10
      { name := none, quantity := some (Val.i 4), price := none,
        total := some (Val.s "abc"), tax_amount := none }).total.isSome
    ∧ ∃ n : Int,
      (stepItem 10
        { name := none, quantity := some (Val.i 4), price := none,
          total := some (Val.s "abc"), tax_amount := none }).tax_amount
        = some (Val.s (commaFormat n)) :=
  c4_fields_present
    [{ name := none, quantity := some (Val.i 2), price := some (Val.s "500"),
       total := none, tax_amount := none },
     { name := none, quantity := some (Val.i 4), price := none,
       total := some (Val.s "abc"), tax_amount := none }] 10
    (stepItem 10
      { name := none, quantity := some (Val.i 4), price := none,
        total := some (Val.s "abc"), tax_amount := none })
    (by decide)

/-- C5: when the filled total of an item fails to parse after comma
stripping, that item contributes zero to supply_price, its tax_amount
becomes the string "0", the output still has one item per input item,
and every input position is processed into its own output position; the
failure is never fatal. -/
theorem c5_malformed_total (items : List Item) (tax : Int) (i : Nat) (it : Item)
    (hi : items[i]? = some it)
    (hfail : pyInt (stripCommas (pyStr ((fillTotal it).total.getD (Val.s "0")))) = none) :
    (calculate_totals items tax).1[i]? = some (stepItem tax it)
    ∧ (stepItem tax it).tax_amount = some (Val.s "0")
    ∧ itemContribution it = 0
    ∧ (calculate_totals items tax).1.length = items.length
    ∧ (∀ (j : Nat) (jt : Item), items[j]? = some jt →
        (calculate_totals items tax).1[j]? = some (stepItem tax jt)) := by
  have hmap : (calculate_totals items tax).1 = items.map (stepItem tax) := by
    simp [calculate_totals_eq]
  refine ⟨?_, ?_, ?_, ?_, ?_⟩
  · rw [hmap, List.getElem?_map, hi]; rfl
  · simp [stepItem, processItem, hfail]
  · simp [itemContribution, hfail]
  · rw [hmap, List.length_map]
  · intro j jt hj; rw [hmap, List.getElem?_map, hj]; rfl

/-- C5 witness: an item with the unparseable total abc followed by a
parseable item; the bad item gets tax_amount "0", contributes zero, and
both items are still processed. -/
theorem c5_witness :
    (calculate_totals
      [{ name := none, quantity := some (Val.i 4), price := none,
         total := some (Val.s "abc"), tax_amount := none },
       { name := none, quantity := none, price := none,
         total := some (Val.s "5"), tax_amount := none }] 10).1[0]?
      = some (stepItem 10
        { name := none, quantity := some (Val.i 4), price := none,
          total := some (Val.s "abc"), tax_amount := none })
    ∧ (stepItem 10
        { name := none, quantity := some (Val.i 4), price := none,
          total := some (Val.s "abc"), tax_amount := none }).tax_amount
      = some (Val.s "0")
    ∧ itemContribution
        { name := none, quantity := some (Val.i 4), price := none,
          total := some (Val.s "abc"), tax_amount := none } = 0
    ∧ (calculate_totals
        [{ name := none, quantity := some (Val.i 4), price := none,
           total := some (Val.s "abc"), tax_amount := none },
         { name := none, quantity := none, price := none,
           total := some (Val.s "5"), tax_amount := none }] 10).1.length = 2 :=
  have h := c5_malformed_total
    [{ name := none, quantity := some (Val.i 4), price := none,
       total := some (Val.s "abc"), tax_amount := none },
     { name := none, quantity := none, price := none,
       total := some (Val.s "5"), tax_amount := none }] 10 0
    { name := none, quantity := some (Val.i 4), price := none,
      total := some (Val.s "abc"), tax_amount := none } rfl (by decide)
  ⟨h.1, h.2.1, h.2.2.1, h.2.2.2.1⟩

/-- The sum of quantity contributions equals the sum over only the
successfully parsed quantities: a failed parse contributes nothing. -/
theorem quantity_sum_filterMap (l : List Item) :
    (l.map quantityContribution).sum = (l.filterMap parsedQuantity).sum := by
  induction l with
  | nil => simp
  | cons h t ih =>
    have hc : quantityContribution h = (parsedQuantity h).getD 0 := rfl
    cases hq : parsedQuantity h with
    | none => simp [List.filterMap_cons, hq, ih, hc]
    | some q => simp [List.filterMap_cons, hq, ih, hc]

/-- C6: total_quantity is the sum of exactly the quantities that parse
successfully; the quantity "abc" does not parse, and on the concrete
collection is skipped without aborting the following item. -/
theorem c6_total_quantity (items : List Item) (tax : Int) :
    (calculate_totals items tax).2.total_quantity = (items.filterMap parsedQuantity).sum
    ∧ parsedQuantity
        { name := none, quantity := some (Val.s "abc"), price := none,
          total := some (Val.s "5"), tax_amount := none } = none
    ∧ (calculate_totals
        [{ name := none, quantity := some (Val.s "abc"), price := none,
           total := some (Val.s "5"), tax_amount := none },
         { name := none, quantity := some (Val.i 2), price := none,
           total := some (Val.s "5"), tax_amount := none }] 10).2.total_quantity = 2 := by
  refine ⟨?_, by decide, by decide⟩
  simp [calculate_totals_eq, quantity_sum_filterMap]

/-- C7: each of the three top-level monetary fields resolves to the
override on the input record when the corresponding key is present, and
to the value computed by calculate_totals otherwise. -/
theorem c7_overrides (data : RecordData) (v : Val) :
    (data.supply_price = some v → (resolvedAmounts data).1 = v)
    ∧ (data.supply_price = none → (resolvedAmounts data).1
        = Val.s ((calculate_totals data.items (data.tax.getD 10)).2.supply_price))
    ∧ (data.tax_amount = some v → (resolvedAmounts data).2.1 = v)
    ∧ (data.tax_amount = none → (resolvedAmounts data).2.1
        = Val.s ((calculate_totals data.items (data.tax.getD 10)).2.tax_amount))
    ∧ (data.total_amount = some v → (resolvedAmounts data).2.2 = v)
    ∧ (data.total_amount = none → (resolvedAmounts data).2.2
        = Val.s ((calculate_totals data.items (data.tax.getD 10)).2.total_amount)) := by
  refine ⟨?_, ?_, ?_, ?_, ?_, ?_⟩ <;> intro h <;> simp [resolvedAmounts, h]

/-- C7 witness: a record overriding total_amount with "999" resolves to
"999" even though computation over its single item yields "1,100". -/
theorem c7_witness :
    (resolvedAmounts
      { items := [{ name := none, quantity := some (Val.i 2), price := some (Val.s "500"),
                    total := none, tax_amount := none }],
        tax := none, supply_price := none, tax_amount := none,
        total_amount := some (Val.s "999") }).2.2 = Val.s "999"
    ∧ Val.s "999"
      ≠ Val.s ((calculate_totals
          [{ name := none, quantity := some (Val.i 2), price := some (Val.s "500"),
             total := none, tax_amount := none }] 10).2.total_amount) :=
  ⟨(c7_overrides
      { items := [{ name := none, quantity := some (Val.i 2), price := some (Val.s "500"),
                    total := none, tax_amount := none }],
        tax := none, supply_price := none, tax_amount := none,
        total_amount := some (Val.s "999") } (Val.s "999")).2.2.2.2.1 rfl,
   by decide⟩

/-- C8: when either operand of calculate_item_total fails to parse, the
result is the string "0"; a missing quantity is not a parse failure but
parses to zero. -/
theorem c8_zero_on_failure (item : Item) :
    ((parsedQuantity item = none
        ∨ pyInt (stripCommas (pyStr (item.price.getD (Val.s "0")))) = none) →
      calculate_item_total item = "0")
    ∧ (item.quantity = none → parsedQuantity item = some 0) := by
  constructor
  · intro h
    cases hq : pyInt (pyStr (item.quantity.getD (Val.i 0))) with
    | none =>
      cases hp : pyInt (stripCommas (pyStr (item.price.getD (Val.s "0")))) <;>
        simp [calculate_item_total, hq, hp]
    | some q =>
      cases hp : pyInt (stripCommas (pyStr (item.price.getD (Val.s "0")))) with
      | none => simp [calculate_item_total, hq, hp]
      | some p =>
        exfalso
        rcases h with h | h
        · rw [parsedQuantity] at h
          rw [h] at hq
          exact Option.noConfusion hq
        · rw [h] at hp
          exact Option.noConfusion hp
  · intro h
    simp [parsedQuantity, h]
    decide

/-- C8 witness: price "oops" gives the result "0", and an absent
quantity parses to zero. -/
theorem c8_witness :
    calculate_item_total
      { name := none, quantity := some (Val.i 2), price := some (Val.s "oops"),
        total := none, tax_amount := none } = "0"
    ∧ parsedQuantity
      { name := none, quantity := none, price := some (Val.s "500"),
        total := none, tax_amount := none } = some 0 :=
  ⟨(c8_zero_on_failure
      { name := none, quantity := some (Val.i 2), price := some (Val.s "oops"),
        total := none, tax_amount := none }).1 (Or.inr (by decide)),
   (c8_zero_on_failure
      { name := none, quantity := none, price := some (Val.s "500"),
        total := none, tax_amount := none }).2 rfl⟩

/-- C9: with no explicit output path, generate_pdf builds the path
output/{stem of the json path}_{template name}_{title with spaces
removed}.pdf, and the path depends only on that triple: equal stems,
template names and stripped titles give equal paths. -/
theorem c9_output_path (jp dt : String) (tov : Option String)
    (jp2 dt2 : String) (tov2 : Option String)
    (h1 : pathStem jp = pathStem jp2)
    (h2 : templateNameOf tov = templateNameOf tov2)
    (h3 : removeSpaces dt = removeSpaces dt2) :
    generatePdfOutputPath jp none tov dt
      = "output/" ++ pathStem jp ++ "_" ++ templateNameOf tov ++ "_"
        ++ removeSpaces dt ++ ".pdf"
    ∧ generatePdfOutputPath jp none tov dt = generatePdfOutputPath jp2 none tov2 dt2 := by
  constructor
  · rfl
  · simp [generatePdfOutputPath, h1, h2, h3]

/-- C9 witness: two invocations agreeing on the stem, on the resolved
template name and on the stripped title produce the same path. -/
theorem c9_witness :
    generatePdfOutputPath "data/estimate.json" none none "견 적 서"
      = generatePdfOutputPath "backup/estimate.txt" none (some "") "견적 서" :=
  (c9_output_path "data/estimate.json" "견 적 서" none "backup/estimate.txt" "견적 서"
    (some "") (by decide) (by decide) (by decide)).2

/-- C10 counterexample: an item whose total is the number 0 is present
and is not an empty string, yet calculate_totals recomputes it: the
output item carries total "1,000" in place of the supplied 0. -/
theorem c10_counterexample :
    (calculate_totals
      [{ name := none, quantity := some (Val.i 2), price := some (Val.s "500"),
         total := some (Val.i 0), tax_amount := none }] 10).1
      = [{ name := none, quantity := some (Val.i 2), price := some (Val.s "500"),
           total := some (Val.s "1,000"), tax_amount := some (Val.s "100") }]
    ∧ (Val.s "1,000" ≠ Val.i 0) := by decide

/-- C10 amended: an item whose total is present and Python-truthy (a
non-empty string or a non-zero number) keeps its total unchanged
through calculate_totals, and its supply-price contribution is the
parse of that original total with commas stripped, zero on failure. -/
theorem c10_truthy_total_kept (items : List Item) (tax : Int) (i : Nat) (it : Item)
    (hi : items[i]? = some it) (ht : totalFilled it = true) :
    (calculate_totals items tax).1[i]? = some (stepItem tax it)
    ∧ (stepItem tax it).total = it.total
    ∧ itemContribution it
      = (pyInt (stripCommas (pyStr (it.total.getD (Val.s "0"))))).getD 0 := by
  have hmap : (calculate_totals items tax).1 = items.map (stepItem tax) := by
    simp [calculate_totals_eq]
  refine ⟨?_, ?_, ?_⟩
  · rw [hmap, List.getElem?_map, hi]; rfl
  · rw [stepItem_total]; simp [fillTotal, ht]
  · simp [itemContribution, fillTotal, ht]

/-- C10 witness: a present truthy total "7" is kept as-is and
contributes 7 to the supply price even though quantity times price
would give "1,000". -/
theorem c10_witness :
    (stepItem 10
      { name := none, quantity := some (Val.i 2), price := some (Val.s "500"),
        total := some (Val.s "7"), tax_amount := none }).total = some (Val.s "7")
    ∧ itemContribution
      { name := none, quantity := some (Val.i 2), price := some (Val.s "500"),
        total := some (Val.s "7"), tax_amount := none } = 7
    ∧ calculate_item_total
      { name := none, quantity := some (Val.i 2), price := some (Val.s "500"),
        total := some (Val.s "7"), tax_amount := none } = "1,000"
    ∧ ((7 : Int) ≠ 1000) :=
  have h := c10_truthy_total_kept
    [{ name := none, quantity := some (Val.i 2), price := some (Val.s "500"),
       total := some (Val.s "7"), tax_amount := none }] 10 0
    { name := none, quantity := some (Val.i 2), price := some (Val.s "500"),
      total := some (Val.s "7"), tax_amount := none } rfl (by decide)
  ⟨h.2.1, h.2.2, by decide, by decide⟩
